import Mathlib

/-!
Shallow embedding of the core episode-transformation pipeline of
`convert_to_groot_format.py` (class `RavensToGR00TConverter`), together with
proofs of the specification's claims about it.

Numeric Python values (ints and floats) are modelled as rationals; Python
`None`/absence of a modality is modelled with `Option`; dictionaries whose
iteration order matters are modelled as association lists in iteration order.
-/

namespace GrootConvert

/-- A Python runtime value that can end up inside a state vector: a numeric
scalar (`int`/`float`, modelled as a rational) or a non-numeric scalar such as
a string. -/
inductive PyVal where
  | num (q : ℚ)
  | str (s : String)
deriving DecidableEq, Repr

/-- A value stored under a key of a per-step `info` dictionary: a scalar, a
list/array of scalars (`list`/`np.ndarray`), or some other Python object
(dict, `None`, tuple, ...) that matches neither `isinstance` test of the
source. -/
inductive InfoVal where
  | scalar (v : PyVal)
  | vec (xs : List PyVal)
  | other
deriving DecidableEq, Repr

/-- One step's entry of the `info` modality.  The source guards on
`isinstance(info, dict)`; a non-dict step contributes nothing. -/
inductive InfoStep where
  | dict (entries : List (String × InfoVal))
  | nonDict
deriving DecidableEq, Repr

/-- One step's entry of the `action` modality: a numeric scalar or a
list/array of numbers (`isinstance(action, (list, np.ndarray))`). -/
inductive ActVal where
  | scalar (q : ℚ)
  | vec (xs : List ℚ)
deriving DecidableEq, Repr

/-- Flattening of an action value as done by `state_components.extend(action)`
versus `state_components.append(action)` in the source. -/
def ActVal.flatten : ActVal → List ℚ
  | .scalar q => [q]
  | .vec xs => xs

/-- The raw color-frame tensor handed to `create_video_from_frames`: its numpy
shape, its flattened element data, and whether its dtype is already `np.uint8`. -/
structure FrameTensor where
  shape : List ℕ
  data : List ℚ
  isUint8 : Bool
deriving DecidableEq, Repr

/-- An Episode Record as returned by `load_ravens_episode`: one optional entry
per modality; `none` means the modality's pickle file was absent, so the key
is missing from the returned dict. -/
structure EpisodeData where
  color : Option FrameTensor := none
  depth : Option (List ℚ) := none
  action : Option (List ActVal) := none
  reward : Option (List ℚ) := none
  info : Option (List InfoStep) := none
deriving DecidableEq, Repr

/-- `if not episode_data:` in `convert_dataset` — the loaded dict is empty iff
no modality file was found. -/
def EpisodeData.isEmpty (d : EpisodeData) : Bool :=
  d.color.isNone && d.depth.isNone && d.action.isNone && d.reward.isNone &&
    d.info.isNone

/-- `episode_data.get('action', [])`. -/
def actionArr (d : EpisodeData) : List ActVal := d.action.getD []

/-- `episode_data.get('reward', [])`. -/
def rewardArr (d : EpisodeData) : List ℚ := d.reward.getD []

/-- `self.task_descriptions`: the fixed insertion-ordered dict of known task
names and their descriptions. -/
def task_descriptions : List (String × String) :=
  [("block-insertion", "Insert the L-shaped block into the fixture"),
   ("place-red-in-green", "Place the red block in the green zone"),
   ("towers-of-hanoi", "Move blocks to solve the towers of hanoi puzzle"),
   ("stack-block-pyramid", "Stack blocks to form a pyramid"),
   ("align-box-corner", "Align the box with the corner"),
   ("assembling-kits", "Assemble the kit by placing objects correctly"),
   ("manipulating-rope", "Manipulate the rope to achieve the goal"),
   ("packing-boxes", "Pack boxes in the container"),
   ("palletizing-boxes", "Palletize boxes in the correct order"),
   ("sweeping-piles", "Sweep the pile of objects")]

/-- `list(self.task_descriptions.keys())`. -/
def taskKeys : List String := task_descriptions.map Prod.fst

/-- `list(self.task_descriptions.keys()).index(task_name) if task_name in
self.task_descriptions else 0`. -/
def taskIndexOf (task_name : String) : ℕ :=
  if task_name ∈ taskKeys then taskKeys.indexOf task_name else 0

/-- One Step Row of the per-episode parquet table, with one field per column
written by `create_parquet_data`. -/
structure StepRow where
  observation_state : List PyVal
  action : List ℚ
  timestamp : ℚ
  annotation_human_action_task_description : ℕ
  task_index : ℕ
  annotation_human_validity : ℕ
  episode_index : ℕ
  index : ℕ
  next_reward : ℚ
  next_done : Bool
deriving DecidableEq, Repr

/-- Contribution of the per-step action value to `state_components`
(`if 'action' in episode_data and step < len(episode_data['action'])`). -/
def stateActionPart (d : EpisodeData) (step : ℕ) : List ℚ :=
  match d.action with
  | none => []
  | some acts =>
    match acts.get? step with
    | some a => a.flatten
    | none => []

/-- Contribution of the per-step reward to `state_components`
(`if 'reward' in episode_data and step < len(episode_data['reward'])`). -/
def stateRewardPart (d : EpisodeData) (step : ℕ) : List ℚ :=
  match d.reward with
  | none => []
  | some rs =>
    match rs.get? step with
    | some r => [r]
    | none => []

/-- Contribution of one info-dict value to `state_components`:
`if isinstance(value, (int, float)): append(value)`
`elif isinstance(value, (list, np.ndarray)) and len(value) <= 10: extend(value)`. -/
def infoValState : InfoVal → List PyVal
  | .scalar (.num q) => [PyVal.num q]
  | .scalar (.str _) => []
  | .vec xs => if xs.length ≤ 10 then xs else []
  | .other => []

/-- Contribution of one step's info entry to `state_components`:
`if isinstance(info, dict): for key, value in info.items(): ...`. -/
def infoStepState : InfoStep → List PyVal
  | .dict entries => entries.flatMap (fun kv => infoValState kv.2)
  | .nonDict => []

/-- Contribution of the `info` modality to `state_components`
(`if 'info' in episode_data and step < len(episode_data['info'])`). -/
def stateInfoPart (d : EpisodeData) (step : ℕ) : List PyVal :=
  match d.info with
  | none => []
  | some infos =>
    match infos.get? step with
    | some i => infoStepState i
    | none => []

/-- The `action` column: the step's action wrapped as a list, defaulting to
`[0.0]` when unavailable. -/
def rowActionField (d : EpisodeData) (step : ℕ) : List ℚ :=
  match d.action with
  | none => [0]
  | some acts =>
    match acts.get? step with
    | none => [0]
    | some (.scalar q) => [q]
    | some (.vec xs) => xs

/-- The look-ahead pair (`next.reward`, `next.done`): for `step <
episode_length - 1` the next reward is `episode_data.get('reward', [0])[step
+ 1]` when `step + 1` is within the reward array, else `0`, with done false;
the last step gets reward `0` and done true. -/
def nextFields (d : EpisodeData) (episode_length step : ℕ) : ℚ × Bool :=
  if step < episode_length - 1 then
    (match (rewardArr d).get? (step + 1) with
     | some r => r
     | none => 0, false)
  else
    (0, true)

/-- One iteration of the `for step in range(episode_length)` loop of
`create_parquet_data`. -/
def buildRow (d : EpisodeData) (episode_id : ℕ) (task_name : String)
    (global_index : ℕ) (episode_length step : ℕ) : StepRow :=
  let ti := taskIndexOf task_name
  let nx := nextFields d episode_length step
  { observation_state :=
      (stateActionPart d step).map PyVal.num ++
      (stateRewardPart d step).map PyVal.num ++
      stateInfoPart d step
    action := rowActionField d step
    timestamp := (step : ℚ) * (1 / 10)
    annotation_human_action_task_description := ti
    task_index := ti
    annotation_human_validity := 1
    episode_index := episode_id
    index := global_index + step
    next_reward := nx.1
    next_done := nx.2 }

/-- `create_parquet_data`: the full row sequence of one episode, one row per
index of the action array. -/
def create_parquet_data (d : EpisodeData) (episode_id : ℕ) (task_name : String)
    (global_index : ℕ) : List StepRow :=
  (List.range (actionArr d).length).map
    (buildRow d episode_id task_name global_index (actionArr d).length)

/-- The per-episode loop of `convert_dataset`: walk episode ids in order,
skip an episode whose loaded dict is empty, otherwise persist its rows and
advance the running `global_index` by the row count.  Returns the persisted
(episode id, row sequence) pairs in processing order. -/
def convertEpisodes (load : ℕ → EpisodeData) (task_name : String) :
    List ℕ → ℕ → List (ℕ × List StepRow)
  | [], _ => []
  | eid :: rest, global_index =>
    let d := load eid
    if d.isEmpty then
      convertEpisodes load task_name rest global_index
    else
      let rows := create_parquet_data d eid task_name global_index
      (eid, rows) :: convertEpisodes load task_name rest
        (global_index + rows.length)

/-- One line of `meta/tasks.jsonl`. -/
structure TaskCatalogEntry where
  task_index : ℕ
  task : String
deriving DecidableEq, Repr

/-- One line of `meta/episodes.jsonl`. -/
structure EpisodeCatalogEntry where
  episode_index : ℕ
  tasks : List ℕ
  length : ℕ
deriving DecidableEq, Repr

/-- `meta/info.json` (aggregate counts plus naming fields). -/
structure DatasetInfo where
  name : String
  total_episodes : ℕ
  total_frames : ℕ
deriving DecidableEq, Repr

/-- The `tasks.jsonl` contents built by `create_metadata_files`: one entry per
`task_descriptions` item, `task_index` = enumeration position.  Note it takes
no dataset argument at all. -/
def tasksJsonl : List TaskCatalogEntry :=
  task_descriptions.enum.map (fun p => { task_index := p.1, task := p.2.2 })

/-- The `episodes.jsonl` contents built by `create_metadata_files`: one entry
per discovered episode id, length recomputed by re-loading the episode. -/
def episodesJsonl (load : ℕ → EpisodeData) (task_name : String)
    (episode_ids : List ℕ) : List EpisodeCatalogEntry :=
  episode_ids.map (fun eid =>
    { episode_index := eid
      tasks := [taskIndexOf task_name]
      length := (actionArr (load eid)).length })

/-- The `info.json` contents built by `create_metadata_files`. -/
def infoJson (load : ℕ → EpisodeData) (task_name : String)
    (episode_ids : List ℕ) : DatasetInfo :=
  { name := "ravens_" ++ task_name
    total_episodes := episode_ids.length
    total_frames :=
      (episode_ids.map (fun eid => (actionArr (load eid)).length)).sum }

/-- Truncation toward zero of a rational, as numpy's float-to-integer cast
does. -/
def ratTrunc (q : ℚ) : ℤ := Int.tdiv q.num q.den

/-- `(frames * 255).astype(np.uint8)` on one element: rescale by 255, truncate
to an integer, wrap into the 8-bit unsigned range. -/
def rescaleToUint8 (q : ℚ) : ℕ := ((ratTrunc (q * 255)) % 256).toNat

/-- Whether `color_frames.reshape(-1, *color_frames.shape[-3:])` succeeds: a
4-D stack is used as is; otherwise the trailing three dimensions must have a
nonzero product dividing the total element count. -/
def reshapeOk (shape : List ℕ) : Bool :=
  if shape.length = 4 then
    true
  else
    let tail := shape.drop (shape.length - 3)
    decide (tail.prod ≠ 0 ∧ tail.prod ∣ shape.prod)

/-- `create_video_from_frames`: the whole body runs under `try`/`except`, so
every failure (reshape error, writer I/O error — modelled by the `writerFails`
input) is caught and returns `False`.  On success the returned list is the
frame data handed to the writer: unchanged when already `uint8`, otherwise
rescaled by 255 and truncated to 8-bit unsigned integers. -/
def create_video_from_frames (t : FrameTensor) (writerFails : Bool) :
    Bool × List ℚ :=
  if reshapeOk t.shape = false then
    (false, [])
  else
    let frames := if t.isUint8 then t.data
                  else t.data.map (fun q => ((rescaleToUint8 q : ℕ) : ℚ))
    if writerFails then (false, []) else (true, frames)

/-- Total row count of a list of episode ids: the sum of their action-array
lengths. -/
def totalLen (load : ℕ → EpisodeData) (episode_ids : List ℕ) : ℕ :=
  (episode_ids.map (fun eid => (actionArr (load eid)).length)).sum

/-- The row sequence is as long as the `range` it maps over. -/
theorem create_parquet_data_length (d : EpisodeData) (eid : ℕ) (tn : String) (g : ℕ) :
    (create_parquet_data d eid tn g).length = (actionArr d).length := by
  simp [create_parquet_data]

/-- The `index` column of a row is the running offset plus the step index. -/
theorem buildRow_index (d : EpisodeData) (eid : ℕ) (tn : String) (g L step : ℕ) :
    (buildRow d eid tn g L step).index = g + step := rfl

/-- The row at position `step` is the one built for step `step`. -/
theorem get?_create_parquet_data (d : EpisodeData) (eid : ℕ) (tn : String) (g step : ℕ)
    (h : step < (actionArr d).length) :
    (create_parquet_data d eid tn g).get? step
      = some (buildRow d eid tn g (actionArr d).length step) := by
  simp only [create_parquet_data, List.get?_eq_getElem?, List.getElem?_map,
    List.getElem?_range h]
  rfl

/-- Every member of the row sequence is the row of some in-range step. -/
theorem mem_create_parquet_data {d : EpisodeData} {eid : ℕ} {tn : String} {g : ℕ}
    {r : StepRow} (hr : r ∈ create_parquet_data d eid tn g) :
    ∃ step, step < (actionArr d).length ∧
      r = buildRow d eid tn g (actionArr d).length step := by
  simp only [create_parquet_data, List.mem_map, List.mem_range] at hr
  obtain ⟨step, hs, he⟩ := hr
  exact ⟨step, hs, he.symm⟩

/-- The `index` column of one episode's rows is the contiguous block starting
at the episode's offset. -/
theorem map_index_create_parquet_data (d : EpisodeData) (eid : ℕ) (tn : String) (g : ℕ) :
    (create_parquet_data d eid tn g).map StepRow.index
      = List.range' g (actionArr d).length := by
  unfold create_parquet_data
  rw [List.map_map, List.range'_eq_map_range]
  apply List.map_congr_left
  intro a _
  rfl

/-- An episode whose loaded dict is empty has no action array, hence zero
rows. -/
theorem actionArr_of_isEmpty {d : EpisodeData} (h : d.isEmpty = true) :
    actionArr d = [] := by
  cases d with
  | mk c dp a r i =>
    simp [EpisodeData.isEmpty, Option.isNone_iff_eq_none] at h
    simp [actionArr, h.1.1.2]

/-- Concatenating all persisted rows in processing order yields `index`
values forming the contiguous block `[g, g + total)`. -/
theorem convertEpisodes_indices (load : ℕ → EpisodeData) (tn : String)
    (ids : List ℕ) : ∀ g : ℕ,
    ((convertEpisodes load tn ids g).flatMap (fun p => p.2)).map StepRow.index
      = List.range' g (totalLen load ids) := by
  induction ids with
  | nil => intro g; simp [convertEpisodes, totalLen]
  | cons eid rest ih =>
    intro g
    rw [convertEpisodes]
    by_cases h : (load eid).isEmpty = true
    · rw [if_pos h, ih g]
      simp [totalLen, actionArr_of_isEmpty h]
    · rw [if_neg h]
      rw [List.flatMap_cons, List.map_append, ih, map_index_create_parquet_data,
        create_parquet_data_length]
      have hra := List.range'_append g (actionArr (load eid)).length (totalLen load rest) 1
      simp only [one_mul] at hra
      rw [hra]
      congr 1
      simp [totalLen, Nat.add_comm]

/-- C1: for every Episode Record, the number of Step Rows produced by
`create_parquet_data` equals the length of the episode's action array, and an
empty or absent action array yields an empty row sequence. -/
theorem C1_row_count_matches_action_length (d : EpisodeData) (eid : ℕ)
    (tn : String) (g : ℕ) :
    (create_parquet_data d eid tn g).length = (actionArr d).length
    ∧ (actionArr d = [] → create_parquet_data d eid tn g = []) := by
  refine ⟨create_parquet_data_length d eid tn g, fun h => ?_⟩
  simp [create_parquet_data, h]

/-- C1 witness: the theorem applied to the all-absent Episode Record, whose
action array is empty. -/
theorem C1_row_count_matches_action_length_witness :
    (create_parquet_data {} 3 "block-insertion" 0).length
        = (actionArr ({} : EpisodeData)).length
    ∧ create_parquet_data {} 3 "block-insertion" 0 = [] :=
  ⟨(C1_row_count_matches_action_length {} 3 "block-insertion" 0).1,
   (C1_row_count_matches_action_length {} 3 "block-insertion" 0).2 rfl⟩

/-- C2: evaluation at the failing input.  A discovered episode id whose data
load comes back empty is skipped by the conversion loop (no table artifact is
persisted), yet `create_metadata_files` — invoked over all discovered ids
before the loop — still emits an Episode Catalog entry (of length 0) for it
and counts it in `total_episodes`, so catalog entries do not correspond 1:1
with persisted table artifacts, contradicting the claim (and the repository's
own `validate_episode_consistency`, which requires the two counts to be
equal). -/
theorem C2_skipped_episode_still_in_catalog :
    convertEpisodes (fun _ => {}) "block-insertion" [0] 0 = []
    ∧ episodesJsonl (fun _ => {}) "block-insertion" [0]
        = [{ episode_index := 0, tasks := [0], length := 0 }]
    ∧ (infoJson (fun _ => {}) "block-insertion" [0]).total_episodes = 1
    ∧ (convertEpisodes (fun _ => {}) "block-insertion" [0] 0).length
        ≠ (episodesJsonl (fun _ => {}) "block-insertion" [0]).length := by
  refine ⟨rfl, by decide, rfl, by decide⟩

/-- C3: processing episodes in order with the running offset starting at 0,
the global `index` values of all persisted rows form exactly the contiguous
block `0, 1, ..., total - 1` — strictly increasing with no gaps or repeats —
and within one episode every row's `index` is the episode's offset plus the
row's step index. -/
theorem C3_global_index_contiguous (load : ℕ → EpisodeData) (tn : String)
    (ids : List ℕ) :
    ((convertEpisodes load tn ids 0).flatMap (fun p => p.2)).map StepRow.index
        = List.range (totalLen load ids)
    ∧ ∀ (d : EpisodeData) (eid g : ℕ),
        (create_parquet_data d eid tn g).map StepRow.index
          = (List.range (actionArr d).length).map (fun step => g + step) := by
  constructor
  · rw [convertEpisodes_indices, List.range_eq_range']
  · intro d eid g
    rw [map_index_create_parquet_data, List.range'_eq_map_range]

/-- C4: in a non-empty episode of length `L`, the row at `step < L - 1` has
`next.done = false` and `next.reward` equal to the reward at `step + 1` when
in bounds and `0` otherwise, while the row at `step = L - 1` has
`next.done = true` and `next.reward = 0`. -/
theorem C4_look_ahead_fields (d : EpisodeData) (eid : ℕ) (tn : String)
    (g step : ℕ) (h : step < (actionArr d).length) :
    ∃ r, (create_parquet_data d eid tn g).get? step = some r
      ∧ (step < (actionArr d).length - 1 →
           r.next_done = false
           ∧ r.next_reward = ((rewardArr d).get? (step + 1)).getD 0)
      ∧ (step = (actionArr d).length - 1 →
           r.next_done = true ∧ r.next_reward = 0) := by
  refine ⟨buildRow d eid tn g (actionArr d).length step,
    get?_create_parquet_data d eid tn g step h, fun hlt => ?_, fun heq => ?_⟩
  · have : (buildRow d eid tn g (actionArr d).length step).next_done
        = (nextFields d (actionArr d).length step).2 := rfl
    constructor
    · rw [this]
      simp [nextFields, hlt]
    · have h2 : (buildRow d eid tn g (actionArr d).length step).next_reward
          = (nextFields d (actionArr d).length step).1 := rfl
      rw [h2]
      simp only [nextFields, hlt, if_true]
      cases hr : (rewardArr d).get? (step + 1) <;> simp [hr]
  · have hnl : ¬ step < (actionArr d).length - 1 := by omega
    constructor
    · have : (buildRow d eid tn g (actionArr d).length step).next_done
          = (nextFields d (actionArr d).length step).2 := rfl
      rw [this]; simp [nextFields, hnl]
    · have : (buildRow d eid tn g (actionArr d).length step).next_reward
          = (nextFields d (actionArr d).length step).1 := rfl
      rw [this]; simp [nextFields, hnl]

/-- C4 witness: the theorem applied at step 0 of a 2-step episode with
rewards `[3, 4]`. -/
theorem C4_look_ahead_fields_witness :
    (0 < (actionArr { action := some [ActVal.scalar 1, ActVal.scalar 2],
                      reward := some [3, 4] }).length)
    ∧ (∃ r, (create_parquet_data
          { action := some [ActVal.scalar 1, ActVal.scalar 2],
            reward := some [3, 4] } 0 "block-insertion" 0).get? 0 = some r
        ∧ (0 < (actionArr { action := some [ActVal.scalar 1, ActVal.scalar 2],
                            reward := some [(3 : ℚ), 4] }).length - 1 →
             r.next_done = false
             ∧ r.next_reward = ((rewardArr
                  { action := some [ActVal.scalar 1, ActVal.scalar 2],
                    reward := some [3, 4] }).get? (0 + 1)).getD 0)
        ∧ (0 = (actionArr { action := some [ActVal.scalar 1, ActVal.scalar 2],
                            reward := some [(3 : ℚ), 4] }).length - 1 →
             r.next_done = true ∧ r.next_reward = 0)) :=
  ⟨by decide,
   C4_look_ahead_fields
     { action := some [ActVal.scalar 1, ActVal.scalar 2], reward := some [3, 4] }
     0 "block-insertion" 0 0 (by decide)⟩

/-- C5: every row's state vector is the in-order concatenation of the
flattened action value, then the reward scalar when present, then the
retained info-field values in the mapping's iteration order; and the spec
scenario `action = [a0, a1]`, `reward = [r0, r1]`,
`info = [{x: 1.0}, {x: 2.0}]` yields exactly two rows with
`state₀ = [a0, r0, 1]`, `next.reward₀ = r1`, `next.done₀ = false`,
`next.reward₁ = 0`, `next.done₁ = true`. -/
theorem C5_state_vector_order (a0 a1 r0 r1 : ℚ) (eid g : ℕ) :
    (∀ (d : EpisodeData) (tn : String) (step : ℕ) (r : StepRow),
        (create_parquet_data d eid tn g).get? step = some r →
        r.observation_state =
          (stateActionPart d step).map PyVal.num ++
            (stateRewardPart d step).map PyVal.num ++ stateInfoPart d step)
    ∧ create_parquet_data
        { action := some [.scalar a0, .scalar a1], reward := some [r0, r1],
          info := some [.dict [("x", .scalar (.num 1))],
                        .dict [("x", .scalar (.num 2))]] } eid "block-insertion" g
      = [{ observation_state := [.num a0, .num r0, .num 1],
           action := [a0], timestamp := 0,
           annotation_human_action_task_description := 0, task_index := 0,
           annotation_human_validity := 1, episode_index := eid, index := g,
           next_reward := r1, next_done := false },
         { observation_state := [.num a1, .num r1, .num 2],
           action := [a1], timestamp := 1 / 10,
           annotation_human_action_task_description := 0, task_index := 0,
           annotation_human_validity := 1, episode_index := eid, index := g + 1,
           next_reward := 0, next_done := true }] := by
  constructor
  · intro d tn step r hr
    have hs : step < (actionArr d).length := by
      have hlen := List.get?_eq_some.1 hr
      obtain ⟨hl, _⟩ := hlen
      rwa [create_parquet_data_length] at hl
    rw [get?_create_parquet_data d eid tn g step hs] at hr
    injection hr with hr
    subst hr
    rfl
  · have h2 : (List.range 2) = [0, 1] := rfl
    simp only [create_parquet_data, actionArr]
    norm_num [h2, buildRow, stateActionPart, stateRewardPart, stateInfoPart,
      infoStepState, infoValState, rowActionField, nextFields, rewardArr,
      taskIndexOf, taskKeys, task_descriptions, ActVal.flatten]

/-- C5 witness: the theorem applied to the scenario with
`a0 = 1, a1 = 2, r0 = 3, r1 = 4`, with its row-lookup hypothesis discharged
at step 0 of a concrete one-step episode. -/
theorem C5_state_vector_order_witness :
    ((buildRow { action := some [ActVal.scalar 1] } 0 "block-insertion" 0 1 0).observation_state
        = (stateActionPart { action := some [ActVal.scalar 1] } 0).map PyVal.num ++
            (stateRewardPart { action := some [ActVal.scalar 1] } 0).map PyVal.num ++
            stateInfoPart { action := some [ActVal.scalar 1] } 0)
    ∧ create_parquet_data
        { action := some [.scalar 1, .scalar 2], reward := some [3, 4],
          info := some [.dict [("x", .scalar (.num 1))],
                        .dict [("x", .scalar (.num 2))]] } 0 "block-insertion" 0
      = [{ observation_state := [.num 1, .num 3, .num 1],
           action := [1], timestamp := 0,
           annotation_human_action_task_description := 0, task_index := 0,
           annotation_human_validity := 1, episode_index := 0, index := 0,
           next_reward := 4, next_done := false },
         { observation_state := [.num 2, .num 4, .num 2],
           action := [2], timestamp := 1 / 10,
           annotation_human_action_task_description := 0, task_index := 0,
           annotation_human_validity := 1, episode_index := 0, index := 0 + 1,
           next_reward := 0, next_done := true }] :=
  ⟨(C5_state_vector_order 1 2 3 4 0 0).1 { action := some [ActVal.scalar 1] }
      "block-insertion" 0 (buildRow { action := some [ActVal.scalar 1] } 0
      "block-insertion" 0 1 0)
      (get?_create_parquet_data { action := some [ActVal.scalar 1] } 0
        "block-insertion" 0 0 (by decide)),
   (C5_state_vector_order 1 2 3 4 0 0).2⟩

/-- C6 counterexample: a NON-numeric vector of length 1 (a list holding the
string value a) is flattened into the state vector rather than silently
dropped, because the source only checks `isinstance(value, (list,
np.ndarray)) and len(value) <= 10` without inspecting the element type — so
the claim that every non-numeric value is dropped is false. -/
theorem C6_non_numeric_vector_not_dropped :
    ((create_parquet_data
        { action := some [.scalar 1],
          info := some [.dict [("bad", .vec [.str "a"]),
                               ("good", .scalar (.num 5))]] }
        0 "block-insertion" 0).map StepRow.observation_state
      = [[PyVal.num 1, PyVal.str "a", PyVal.num 5]])
    ∧ PyVal.str "a" ∈ ([PyVal.num 1, PyVal.str "a", PyVal.num 5] : List PyVal) :=
  ⟨by decide, by decide⟩

/-- C6 amended: a numeric scalar info value is appended to the state vector;
a list/array value of length at most 10 is flattened and appended regardless
of whether its elements are numeric; a non-numeric scalar and any vector of
length greater than 10 are silently dropped; in particular a length-15 info
field is excluded while a coexisting scalar field in the same step is
retained. -/
theorem C6_info_field_filtering (xs : List PyVal) (h : xs.length = 15) (c : ℚ)
    (k1 k2 : String) (eid g : ℕ) (tn : String) :
    ((create_parquet_data
        { action := some [.scalar 0],
          info := some [.dict [(k1, .vec xs), (k2, .scalar (.num c))]] }
        eid tn g).map StepRow.observation_state
      = [[PyVal.num 0, PyVal.num c]])
    ∧ (∀ ys : List PyVal, ys.length ≤ 10 → infoValState (.vec ys) = ys)
    ∧ (∀ s : String, infoValState (.scalar (.str s)) = [])
    ∧ (∀ ys : List PyVal, 10 < ys.length → infoValState (.vec ys) = []) := by
  refine ⟨?_, fun ys hy => ?_, fun s => rfl, fun ys hy => ?_⟩
  · have h1 : (List.range 1) = [0] := rfl
    simp [create_parquet_data, actionArr, h1, buildRow, stateActionPart,
      stateRewardPart, stateInfoPart, infoStepState, infoValState, h,
      ActVal.flatten]
  · simp [infoValState, hy]
  · simp [infoValState, Nat.not_le.2 hy]

/-- C6 witness: the amended theorem applied to a length-15 numeric vector
field coexisting with the scalar 7, plus its quantified clauses instantiated
at a length-1 and a length-11 vector. -/
theorem C6_info_field_filtering_witness :
    (List.replicate 15 (PyVal.num 2)).length = 15
    ∧ ((create_parquet_data
        { action := some [.scalar 0],
          info := some [.dict [("big", .vec (List.replicate 15 (PyVal.num 2))),
                               ("s", .scalar (.num 7))]] }
        0 "block-insertion" 0).map StepRow.observation_state
      = [[PyVal.num 0, PyVal.num 7]])
    ∧ infoValState (.vec [PyVal.str "a"]) = [PyVal.str "a"]
    ∧ infoValState (.vec (List.replicate 11 (PyVal.num 2))) = [] :=
  ⟨by decide,
   (C6_info_field_filtering (List.replicate 15 (PyVal.num 2)) (by decide) 7
      "big" "s" 0 0 "block-insertion").1,
   (C6_info_field_filtering (List.replicate 15 (PyVal.num 2)) (by decide) 7
      "big" "s" 0 0 "block-insertion").2.1 [PyVal.str "a"] (by decide),
   (C6_info_field_filtering (List.replicate 15 (PyVal.num 2)) (by decide) 7
      "big" "s" 0 0 "block-insertion").2.2.2 (List.replicate 11 (PyVal.num 2))
      (by decide)⟩

/-- C7: the Dataset Info's `total_frames` equals the sum of the Episode
Catalog entries' `length` values, and `total_episodes` equals the number of
Episode Catalog entries, which equals the number of discovered episode ids. -/
theorem C7_dataset_info_totals (load : ℕ → EpisodeData) (tn : String)
    (ids : List ℕ) :
    (infoJson load tn ids).total_frames
        = ((episodesJsonl load tn ids).map EpisodeCatalogEntry.length).sum
    ∧ (infoJson load tn ids).total_episodes = (episodesJsonl load tn ids).length
    ∧ (episodesJsonl load tn ids).length = ids.length := by
  refine ⟨?_, ?_, ?_⟩
  · simp only [infoJson, episodesJsonl, List.map_map]
    rfl
  · simp only [infoJson, episodesJsonl, List.length_map]
  · simp only [episodesJsonl, List.length_map]

/-- C8: every row's task label id equals `taskIndexOf` of the episode's task
name, as does each Episode Catalog entry's singleton task list;
`taskIndexOf` is the position within the fixed `task_descriptions` ordering
for known names and 0 for unknown ones; and the Task Catalog has one entry
per name of the fixed ordering with `task_index` equal to its position,
independent of the dataset. -/
theorem C8_task_index_assignment (load : ℕ → EpisodeData) (tn : String)
    (ids : List ℕ) (d : EpisodeData) (eid g : ℕ) :
    (∀ r ∈ create_parquet_data d eid tn g, r.task_index = taskIndexOf tn)
    ∧ (∀ entry ∈ episodesJsonl load tn ids, entry.tasks = [taskIndexOf tn])
    ∧ (tn ∈ taskKeys → taskIndexOf tn = taskKeys.indexOf tn)
    ∧ (tn ∉ taskKeys → taskIndexOf tn = 0)
    ∧ tasksJsonl.map TaskCatalogEntry.task_index
        = List.range task_descriptions.length
    ∧ tasksJsonl.map TaskCatalogEntry.task = task_descriptions.map Prod.snd := by
  refine ⟨fun r hr => ?_, fun entry he => ?_, fun h => ?_, fun h => ?_,
    by decide, by decide⟩
  · obtain ⟨step, _, he⟩ := mem_create_parquet_data hr
    subst he
    rfl
  · simp only [episodesJsonl, List.mem_map] at he
    obtain ⟨e, _, he⟩ := he
    subst he
    rfl
  · simp [taskIndexOf, h]
  · simp [taskIndexOf, h]

/-- C8 witness: the theorem applied at the known task name towers-of-hanoi
(row and catalog-entry clauses discharged on a concrete episode) and at the
unknown name unknown-task for the fallback index 0. -/
theorem C8_task_index_assignment_witness :
    (buildRow { action := some [ActVal.scalar 1] } 0 "towers-of-hanoi" 0 1 0).task_index
        = taskIndexOf "towers-of-hanoi"
    ∧ ({ episode_index := 9, tasks := [taskIndexOf "towers-of-hanoi"], length := 0 }
        : EpisodeCatalogEntry).tasks = [taskIndexOf "towers-of-hanoi"]
    ∧ taskIndexOf "towers-of-hanoi" = taskKeys.indexOf "towers-of-hanoi"
    ∧ taskIndexOf "unknown-task" = 0 :=
  ⟨(C8_task_index_assignment (fun _ => {}) "towers-of-hanoi" [9]
      { action := some [ActVal.scalar 1] } 0 0).1 _
      (List.get?_mem (get?_create_parquet_data { action := some [ActVal.scalar 1] }
        0 "towers-of-hanoi" 0 0 (by decide))),
   (C8_task_index_assignment (fun _ => {}) "towers-of-hanoi" [9]
      { action := some [ActVal.scalar 1] } 0 0).2.1 _ (by simp [episodesJsonl, actionArr]),
   (C8_task_index_assignment (fun _ => {}) "towers-of-hanoi" [9]
      { action := some [ActVal.scalar 1] } 0 0).2.2.1 (by decide),
   (C8_task_index_assignment (fun _ => {}) "unknown-task" [9]
      { action := some [ActVal.scalar 1] } 0 0).2.2.2.1 (by decide)⟩

/-- C9: `create_video_from_frames` is a total function into a
success/failure boolean (the whole body runs under a catch-all exception
handler, modelled by totality): a malformed shape or a writer I/O error
yields the failure result, and on success the frames handed to the encoder
are the input data unchanged when already uint8 and otherwise each value
rescaled by 255 and truncated to an 8-bit unsigned integer. -/
theorem C9_video_encoder_behavior (t : FrameTensor) (writerFails : Bool) :
    (reshapeOk t.shape = false → (create_video_from_frames t writerFails).1 = false)
    ∧ (writerFails = true → (create_video_from_frames t writerFails).1 = false)
    ∧ ((create_video_from_frames t writerFails).1 = true →
        (create_video_from_frames t writerFails).2
          = if t.isUint8 then t.data
            else t.data.map (fun q => ((rescaleToUint8 q : ℕ) : ℚ))) := by
  unfold create_video_from_frames
  refine ⟨fun h => ?_, fun h => ?_, fun h => ?_⟩
  · rw [if_pos h]
  · by_cases hr : reshapeOk t.shape = false
    · rw [if_pos hr]
    · rw [if_neg hr]
      simp [h]
  · by_cases hr : reshapeOk t.shape = false
    · rw [if_pos hr] at h
      exact absurd h (by decide)
    · rw [if_neg hr] at h ⊢
      by_cases hw : writerFails = true
      · simp [hw] at h
      · simp [hw] at h ⊢

/-- C9 witness: the theorem applied to a tensor with an un-reshapeable
shape, to a writer failure, and to a successful non-uint8 encode of the value
one half. -/
theorem C9_video_encoder_behavior_witness :
    (reshapeOk ([0, 2, 2] : List ℕ) = false
      ∧ (create_video_from_frames ⟨[0, 2, 2], [], true⟩ false).1 = false)
    ∧ (create_video_from_frames ⟨[1, 2, 2, 3], [], true⟩ true).1 = false
    ∧ ((create_video_from_frames ⟨[1, 1, 1, 3], [1 / 2], false⟩ false).1 = true
      ∧ (create_video_from_frames ⟨[1, 1, 1, 3], [1 / 2], false⟩ false).2
          = if (FrameTensor.mk [1, 1, 1, 3] [1 / 2] false).isUint8 then
              (FrameTensor.mk [1, 1, 1, 3] [1 / 2] false).data
            else (FrameTensor.mk [1, 1, 1, 3] [1 / 2] false).data.map
              (fun q => ((rescaleToUint8 q : ℕ) : ℚ))) :=
  ⟨⟨by decide,
    (C9_video_encoder_behavior ⟨[0, 2, 2], [], true⟩ false).1 (by decide)⟩,
   (C9_video_encoder_behavior ⟨[1, 2, 2, 3], [], true⟩ true).2.1 rfl,
   ⟨by decide,
    (C9_video_encoder_behavior ⟨[1, 1, 1, 3], [1 / 2], false⟩ false).2.2 (by decide)⟩⟩

/-- C10: in every row, the integer column `annotation.human.action.task_description`
equals the `task_index` column, and this common value is identical across all
rows of the episode. -/
theorem C10_task_columns_agree (d : EpisodeData) (eid g : ℕ) (tn : String) :
    (∀ r ∈ create_parquet_data d eid tn g,
        r.annotation_human_action_task_description = r.task_index)
    ∧ (∀ r ∈ create_parquet_data d eid tn g,
        ∀ r2 ∈ create_parquet_data d eid tn g, r.task_index = r2.task_index) := by
  refine ⟨fun r hr => ?_, fun r hr r2 hr2 => ?_⟩
  · obtain ⟨step, _, he⟩ := mem_create_parquet_data hr
    subst he
    rfl
  · obtain ⟨step, _, he⟩ := mem_create_parquet_data hr
    obtain ⟨step2, _, he2⟩ := mem_create_parquet_data hr2
    subst he
    subst he2
    rfl

/-- C10 witness: the theorem applied to the single row of a concrete
one-step episode. -/
theorem C10_task_columns_agree_witness :
    ((buildRow { action := some [ActVal.scalar 1] } 0 "block-insertion" 0 1 0).annotation_human_action_task_description
        = (buildRow { action := some [ActVal.scalar 1] } 0 "block-insertion" 0 1 0).task_index)
    ∧ ((buildRow { action := some [ActVal.scalar 1] } 0 "block-insertion" 0 1 0).task_index
        = (buildRow { action := some [ActVal.scalar 1] } 0 "block-insertion" 0 1 0).task_index) :=
  ⟨(C10_task_columns_agree { action := some [ActVal.scalar 1] } 0 0 "block-insertion").1 _
      (List.get?_mem (get?_create_parquet_data { action := some [ActVal.scalar 1] }
        0 "block-insertion" 0 0 (by decide))),
   (C10_task_columns_agree { action := some [ActVal.scalar 1] } 0 0 "block-insertion").2 _
      (List.get?_mem (get?_create_parquet_data { action := some [ActVal.scalar 1] }
        0 "block-insertion" 0 0 (by decide))) _
      (List.get?_mem (get?_create_parquet_data { action := some [ActVal.scalar 1] }
        0 "block-insertion" 0 0 (by decide)))⟩

end GrootConvert
